import Mathlib

/-!
Verification of the Network Threat Monitoring & Cache-Coordination Core
(src/app.py) against its design specification.

The embedding translates the Python source into Lean definitions:
dictionaries with optional keys become structures of Option fields,
in-place mutation of the alert list becomes explicit state passing, the
wall clock becomes an explicit Int parameter, and calls to external
collaborators (the durable store, the cache backend) become explicit
parameters or returned effect lists.
-/

/-- A network-traffic observation, the JSON body of the analyze request.
A field set to none models the key being absent from the dictionary. -/
structure TrafficData where
  source_ip : Option String := none
  destination_ip : Option String := none
  connection_count : Option Int := none
  failed_auth_attempts : Option Int := none
  unusual_ports : Option (List Int) := none
deriving Repr, DecidableEq

/-- The result dictionary built by NetworkMonitor.analyze_traffic
(src/app.py lines 55-60). -/
structure Analysis where
  timestamp : Int
  risk_score : Nat
  threats_detected : List String
  recommendations : List String
deriving Repr, DecidableEq

/-- Python truthiness of `traffic_data.get('source_ip')` (src/app.py line 63):
an absent key or an empty string is falsy. -/
def strTruthy : Option String → Bool
  | none => false
  | some s => s != ""

/-- Modelled from the spec: `cache_manager.check_threat_indicator`
(cache_manager.py, which is not under src/) tests whether the given
source ip is a known threat, backed by the cached indicator snapshot
("Indicator lookup" capability, spec section 6). It is modelled as
membership of the ip in the snapshot of indicator values. -/
def checkThreatIndicator (indicators : List String) (ip : String) : Bool :=
  indicators.contains ip

/-- NetworkMonitor.analyze_traffic (src/app.py lines 53-96), with the
current time and the cached threat-indicator snapshot passed explicitly.
The global `cache_manager` is always a constructed object (src/app.py
line 33), hence truthy, so the guard on line 63 reduces to the
truthiness of the source_ip field. The metric push on lines 86-94 is
modelled separately by analyzeTrafficMetrics. -/
def analyzeTraffic (indicators : List String) (now : Int) (d : TrafficData) : Analysis :=
  let a := ({ timestamp := now, risk_score := 0,
              threats_detected := [], recommendations := [] } : Analysis)
  let a := if strTruthy d.source_ip && checkThreatIndicator indicators (d.source_ip.getD "") then
      { a with risk_score := a.risk_score + 80,
               threats_detected := a.threats_detected ++ ["Known threat IP: " ++ d.source_ip.getD ""],
               recommendations := a.recommendations ++ ["Block IP immediately"] }
    else a
  let a := if d.connection_count.getD 0 > 1000 then
      { a with risk_score := a.risk_score + 30,
               threats_detected := a.threats_detected ++ ["High connection volume"],
               recommendations := a.recommendations ++ ["Investigate source IP for DDoS activity"] }
    else a
  let a := if d.failed_auth_attempts.getD 0 > 10 then
      { a with risk_score := a.risk_score + 50,
               threats_detected := a.threats_detected ++ ["Multiple failed authentication attempts"],
               recommendations := a.recommendations ++ ["Implement rate limiting and block suspicious IPs"] }
    else a
  let a := if d.unusual_ports.getD [] ≠ [] then
      { a with risk_score := a.risk_score + 20,
               threats_detected := a.threats_detected ++ ["Unusual port activity detected"],
               recommendations := a.recommendations ++ ["Review firewall rules and port access"] }
    else a
  a

/-- A metric record sent to the analytics collaborator
(network_analytics.record_metric, src/app.py lines 86-94). -/
structure Metric where
  metric_name : String
  metric_value : Nat
  metric_unit : String
  source : String
  tag_source_ip : String
deriving Repr, DecidableEq

/-- The metric push of NetworkMonitor.analyze_traffic (src/app.py lines
86-94): one sample is recorded when the analytics collaborator is
configured (network_analytics is not None), none otherwise. -/
def analyzeTrafficMetrics (hasAnalytics : Bool) (indicators : List String)
    (now : Int) (d : TrafficData) : List Metric :=
  if hasAnalytics then
    [{ metric_name := "traffic_analysis_risk_score",
       metric_value := (analyzeTraffic indicators now d).risk_score,
       metric_unit := "score",
       source := "network_monitor",
       tag_source_ip := d.source_ip.getD "unknown" }]
  else []

/-- C1: analyze_traffic evaluates all four rules unconditionally; the
risk score is the sum of the weights of exactly the triggered rules
(known-threat source +80, connection_count > 1000 +30,
failed_auth_attempts > 10 +50, unusual_ports non-empty +20), with one
label and one recommendation appended per triggered rule in that fixed
rule order; missing fields read as zero/empty; the spec example
(connection_count 1500, failed_auth_attempts 15) yields score 80 with
two labels and two recommendations. -/
theorem analyze_traffic_rule_additivity (indicators : List String) (now : Int) (d : TrafficData) :
    ((analyzeTraffic indicators now d).risk_score =
        (if strTruthy d.source_ip && checkThreatIndicator indicators (d.source_ip.getD "") then 80 else 0)
      + (if d.connection_count.getD 0 > 1000 then 30 else 0)
      + (if d.failed_auth_attempts.getD 0 > 10 then 50 else 0)
      + (if d.unusual_ports.getD [] ≠ [] then 20 else 0))
  ∧ ((analyzeTraffic indicators now d).threats_detected =
        (if strTruthy d.source_ip && checkThreatIndicator indicators (d.source_ip.getD "") then
          ["Known threat IP: " ++ d.source_ip.getD ""] else [])
      ++ (if d.connection_count.getD 0 > 1000 then ["High connection volume"] else [])
      ++ (if d.failed_auth_attempts.getD 0 > 10 then ["Multiple failed authentication attempts"] else [])
      ++ (if d.unusual_ports.getD [] ≠ [] then ["Unusual port activity detected"] else []))
  ∧ ((analyzeTraffic indicators now d).recommendations =
        (if strTruthy d.source_ip && checkThreatIndicator indicators (d.source_ip.getD "") then
          ["Block IP immediately"] else [])
      ++ (if d.connection_count.getD 0 > 1000 then ["Investigate source IP for DDoS activity"] else [])
      ++ (if d.failed_auth_attempts.getD 0 > 10 then ["Implement rate limiting and block suspicious IPs"] else [])
      ++ (if d.unusual_ports.getD [] ≠ [] then ["Review firewall rules and port access"] else []))
  ∧ ((analyzeTraffic [] 0 { connection_count := some 1500, failed_auth_attempts := some 15 }).risk_score = 80
      ∧ (analyzeTraffic [] 0 { connection_count := some 1500, failed_auth_attempts := some 15 }).threats_detected.length = 2
      ∧ (analyzeTraffic [] 0 { connection_count := some 1500, failed_auth_attempts := some 15 }).recommendations.length = 2) := by
  refine ⟨?_, ?_, ?_, by decide⟩ <;>
  · by_cases h1 : (strTruthy d.source_ip && checkThreatIndicator indicators (d.source_ip.getD "")) = true <;>
    by_cases h2 : d.connection_count.getD 0 > 1000 <;>
    by_cases h3 : d.failed_auth_attempts.getD 0 > 10 <;>
    by_cases h4 : d.unusual_ports.getD [] ≠ [] <;>
    simp [analyzeTraffic, h1, h2, h3, h4]

/-- An alert record as built by NetworkMonitor.generate_alert
(src/app.py lines 100-109). -/
structure Alert where
  id : Nat
  timestamp : Int
  severity : String
  type : String
  description : String
  source_ip : String
  destination_ip : String
  status : String
deriving Repr, DecidableEq

/-- The alert_data dictionary passed to generate_alert; none models an
absent key (src/app.py lines 103-107 read each key with a default). -/
structure AlertData where
  severity : Option String := none
  type : Option String := none
  description : Option String := none
  source_ip : Option String := none
  destination_ip : Option String := none
deriving Repr, DecidableEq

/-- NetworkMonitor.generate_alert (src/app.py lines 98-128): allocates
id = len(alerts) + 1, sets status 'active', appends to the in-memory
list and returns the alert. The durable mirror and the pub/sub publish
are modelled by generateAlertWithFailures. -/
def generateAlert (alerts : List Alert) (now : Int) (d : AlertData) : Alert × List Alert :=
  let alert : Alert :=
    { id := alerts.length + 1,
      timestamp := now,
      severity := d.severity.getD "medium",
      type := d.type.getD "unknown",
      description := d.description.getD "",
      source_ip := d.source_ip.getD "",
      destination_ip := d.destination_ip.getD "",
      status := "active" }
  (alert, alerts ++ [alert])

/-- Modelled from the spec: generate_alert also mirrors one record to
the durable store (security_event.create_event, models.py not under
src/) and publishes one event on the pub/sub channel
(cache_manager.publish_event, cache_manager.py not under src/). Per the
spec (section 4.2), if the durable write or publish fails the in-memory
alert is still created: durability/visibility failures are logged, not
propagated. The two flags say whether each collaborator call fails; the
result is the same either way. -/
def generateAlertWithFailures (failDurable failPublish : Bool)
    (alerts : List Alert) (now : Int) (d : AlertData) : Alert × List Alert :=
  generateAlert alerts now d

/-- The analyze endpoint analyze_network_traffic (src/app.py lines
174-199) after its request-parsing guard: scores the observation, and
when risk_score > 50 synthesizes alert_data (severity high if score >
80 else medium, type traffic_analysis) and calls generate_alert.
Returns the analysis, the resulting alert list, and the metric samples
recorded by analyze_traffic. -/
def analyzeEndpoint (failDurable failPublish hasAnalytics : Bool)
    (indicators : List String) (alerts : List Alert) (now : Int) (d : TrafficData) :
    Analysis × List Alert × List Metric :=
  let analysis := analyzeTraffic indicators now d
  let metrics := analyzeTrafficMetrics hasAnalytics indicators now d
  let alerts2 :=
    if analysis.risk_score > 50 then
      (generateAlertWithFailures failDurable failPublish alerts now
        { severity := some (if analysis.risk_score > 80 then "high" else "medium"),
          type := some "traffic_analysis",
          description := some ("High risk traffic detected (score: " ++ toString analysis.risk_score ++ ")"),
          source_ip := some (d.source_ip.getD "unknown"),
          destination_ip := some (d.destination_ip.getD "unknown") }).2
    else alerts
  (analysis, alerts2, metrics)

/-- C7: risk scoring is deterministic and side-effect-free: the score,
threat labels, recommendations and the emitted metric sample depend
only on the observation and the indicator snapshot, not on the call
time (the timestamp field excepted), so two calls with the same
observation and snapshot agree on all of them. -/
theorem analyze_traffic_deterministic (indicators : List String) (t1 t2 : Int)
    (hasAnalytics : Bool) (d : TrafficData) :
    (analyzeTraffic indicators t1 d).risk_score = (analyzeTraffic indicators t2 d).risk_score
  ∧ (analyzeTraffic indicators t1 d).threats_detected = (analyzeTraffic indicators t2 d).threats_detected
  ∧ (analyzeTraffic indicators t1 d).recommendations = (analyzeTraffic indicators t2 d).recommendations
  ∧ analyzeTrafficMetrics hasAnalytics indicators t1 d = analyzeTrafficMetrics hasAnalytics indicators t2 d := by
  have key : ∀ t : Int,
      (analyzeTraffic indicators t d).risk_score = (analyzeTraffic indicators 0 d).risk_score
    ∧ (analyzeTraffic indicators t d).threats_detected = (analyzeTraffic indicators 0 d).threats_detected
    ∧ (analyzeTraffic indicators t d).recommendations = (analyzeTraffic indicators 0 d).recommendations := by
    intro t
    by_cases h1 : (strTruthy d.source_ip && checkThreatIndicator indicators (d.source_ip.getD "")) = true <;>
    by_cases h2 : d.connection_count.getD 0 > 1000 <;>
    by_cases h3 : d.failed_auth_attempts.getD 0 > 10 <;>
    by_cases h4 : d.unusual_ports.getD [] ≠ [] <;>
    simp [analyzeTraffic, h1, h2, h3, h4]
  obtain ⟨hs1, ht1, hr1⟩ := key t1
  obtain ⟨hs2, ht2, hr2⟩ := key t2
  refine ⟨hs1.trans hs2.symm, ht1.trans ht2.symm, hr1.trans hr2.symm, ?_⟩
  simp [analyzeTrafficMetrics, hs1.trans hs2.symm]

/-- C5: the analyze endpoint returns the risk assessment regardless of
the alert outcome: the response is exactly the assessment produced by
analyze_traffic, and it (together with the resulting alert list and
metrics) is unchanged when the durable mirror or the pub/sub publish of
alert creation fails, so an alert-creation failure never fails the
request. -/
theorem analyze_endpoint_returns_assessment (failDurable failPublish hasAnalytics : Bool)
    (indicators : List String) (alerts : List Alert) (now : Int) (d : TrafficData) :
    (analyzeEndpoint failDurable failPublish hasAnalytics indicators alerts now d).1
      = analyzeTraffic indicators now d
  ∧ analyzeEndpoint failDurable failPublish hasAnalytics indicators alerts now d
      = analyzeEndpoint false false hasAnalytics indicators alerts now d :=
  ⟨rfl, rfl⟩

/-- C2: the analyze endpoint creates an alert exactly when risk_score >
50; the created alert has severity 'high' when risk_score > 80 and
'medium' when 50 < risk_score <= 80, and type 'traffic_analysis'; when
risk_score <= 50 the alert list is unchanged; in every case one metric
sample named 'traffic_analysis_risk_score' carrying the risk score is
recorded (analytics collaborator configured). -/
theorem analyze_endpoint_alert_threshold (failDurable failPublish : Bool)
    (indicators : List String) (alerts : List Alert) (now : Int) (d : TrafficData) :
    ((analyzeEndpoint failDurable failPublish true indicators alerts now d).2.1 =
      if (analyzeTraffic indicators now d).risk_score > 50 then
        alerts ++
          [{ id := alerts.length + 1,
             timestamp := now,
             severity := if (analyzeTraffic indicators now d).risk_score > 80 then "high" else "medium",
             type := "traffic_analysis",
             description := "High risk traffic detected (score: " ++
               toString (analyzeTraffic indicators now d).risk_score ++ ")",
             source_ip := d.source_ip.getD "unknown",
             destination_ip := d.destination_ip.getD "unknown",
             status := "active" }]
      else alerts)
  ∧ (analyzeEndpoint failDurable failPublish true indicators alerts now d).2.2 =
      [{ metric_name := "traffic_analysis_risk_score",
         metric_value := (analyzeTraffic indicators now d).risk_score,
         metric_unit := "score",
         source := "network_monitor",
         tag_source_ip := d.source_ip.getD "unknown" }] := by
  constructor
  · by_cases h : (analyzeTraffic indicators now d).risk_score > 50 <;>
    simp [analyzeEndpoint, generateAlertWithFailures, generateAlert, h]
  · simp [analyzeEndpoint, analyzeTrafficMetrics]

/-- Outcome of the update_alert endpoint (src/app.py lines 269-288):
the updated alert on success, or one of the two error responses
(400 Invalid status, 404 Alert not found). -/
inductive UpdateResult where
  | ok (alert : Alert)
  | invalidStatus
  | notFound
deriving Repr, DecidableEq

/-- The in-place update loop of update_alert (src/app.py lines
279-282): set the status of the first alert carrying the given id and
return the updated alert together with the updated list; none when no
alert matches. -/
def setStatusFirst (alert_id : Nat) (s : String) : List Alert → Option (Alert × List Alert)
  | [] => none
  | a :: rest =>
    if a.id = alert_id then
      some ({ a with status := s }, { a with status := s } :: rest)
    else
      (setStatusFirst alert_id s rest).map (fun p => (p.1, a :: p.2))

/-- The update_alert endpoint (src/app.py lines 269-288): reads status
from the request body (none models an absent key), rejects any value
outside the legal list before looking at the alert list, then updates
the first matching alert or reports not-found. -/
def updateAlert (alerts : List Alert) (alert_id : Nat) (new_status : Option String) :
    UpdateResult × List Alert :=
  match new_status with
  | some s =>
    if s = "active" ∨ s = "resolved" ∨ s = "investigating" then
      match setStatusFirst alert_id s alerts with
      | some (a, alerts2) => (.ok a, alerts2)
      | none => (.notFound, alerts)
    else (.invalidStatus, alerts)
  | none => (.invalidStatus, alerts)

theorem setStatusFirst_eq_none {alert_id : Nat} {s : String} {l : List Alert} :
    setStatusFirst alert_id s l = none ↔ ∀ a ∈ l, a.id ≠ alert_id := by
  induction l with
  | nil => simp [setStatusFirst]
  | cons a t ih =>
    by_cases h : a.id = alert_id
    · simp [setStatusFirst, h]
    · cases hrec : setStatusFirst alert_id s t with
      | none =>
        constructor
        · intro _ b hb
          rcases List.mem_cons.mp hb with rfl | hb
          · exact h
          · exact ih.mp hrec b hb
        · intro _
          simp [setStatusFirst, h, hrec]
      | some p =>
        constructor
        · intro hcontra
          exact absurd hcontra (by simp [setStatusFirst, h, hrec])
        · intro hall
          exact absurd (ih.mpr fun b hb => hall b (List.mem_cons_of_mem a hb)) (by simp [hrec])

theorem setStatusFirst_eq_some {alert_id : Nat} {s : String} {l : List Alert}
    {u : Alert} {l2 : List Alert} (h : setStatusFirst alert_id s l = some (u, l2)) :
    ∃ pre a0 post,
      l = pre ++ a0 :: post
    ∧ a0.id = alert_id
    ∧ (∀ b ∈ pre, b.id ≠ alert_id)
    ∧ u = { a0 with status := s }
    ∧ l2 = pre ++ { a0 with status := s } :: post := by
  induction l generalizing u l2 with
  | nil => simp [setStatusFirst] at h
  | cons a t ih =>
    by_cases ha : a.id = alert_id
    · simp only [setStatusFirst, if_pos ha, Option.some_inj] at h
      obtain ⟨hu, hl⟩ := Prod.mk.injEq .. ▸ h
      exact ⟨[], a, t, by simp, ha, by simp, hu.symm, by simp [hl.symm]⟩
    · cases hrec : setStatusFirst alert_id s t with
      | none => simp [setStatusFirst, ha, hrec] at h
      | some p =>
        obtain ⟨q1, q2⟩ := p
        simp [setStatusFirst, ha, hrec] at h
        obtain ⟨hu2, hl2e⟩ := h
        obtain ⟨pre, a0, post, hl, hid, hpre, hu, hl2⟩ := ih hrec
        refine ⟨a :: pre, a0, post, by simp [hl], hid, ?_, ?_, ?_⟩
        · intro b hb
          rcases List.mem_cons.mp hb with hb | hb
          · exact hb ▸ ha
          · exact hpre b hb
        · rw [← hu2]; exact hu
        · rw [← hl2e]; simp [hl2]

/-- C4: update_alert succeeds only for a requested status in
active/resolved/investigating: any other value (also an absent status
field) yields the validation error and leaves the alerts unchanged; a
legal status with no matching alert id yields not-found; on success the
list changes only at the matched alert, and only in its status field. -/
theorem update_alert_contract (alerts : List Alert) (alert_id : Nat) :
    (∀ s : String, ¬(s = "active" ∨ s = "resolved" ∨ s = "investigating") →
        updateAlert alerts alert_id (some s) = (.invalidStatus, alerts))
  ∧ updateAlert alerts alert_id none = (.invalidStatus, alerts)
  ∧ (∀ s : String, (s = "active" ∨ s = "resolved" ∨ s = "investigating") →
        (∀ a ∈ alerts, a.id ≠ alert_id) →
        updateAlert alerts alert_id (some s) = (.notFound, alerts))
  ∧ (∀ (s : String) (a : Alert), (updateAlert alerts alert_id (some s)).1 = .ok a →
        ∃ pre a0 post,
          alerts = pre ++ a0 :: post
        ∧ a0.id = alert_id
        ∧ a = { a0 with status := s }
        ∧ (updateAlert alerts alert_id (some s)).2 = pre ++ { a0 with status := s } :: post) := by
  refine ⟨?_, rfl, ?_, ?_⟩
  · intro s hs
    simp [updateAlert, hs]
  · intro s hs hnone
    simp [updateAlert, hs, setStatusFirst_eq_none.mpr hnone]
  · intro s a hok
    by_cases hs : s = "active" ∨ s = "resolved" ∨ s = "investigating"
    · cases hset : setStatusFirst alert_id s alerts with
      | none => simp [updateAlert, hs, hset] at hok
      | some p =>
        obtain ⟨u, l2⟩ := p
        have ha : u = a := by simpa [updateAlert, hs, hset] using hok
        obtain ⟨pre, a0, post, hl, hid, hpre, hu, hl2⟩ := setStatusFirst_eq_some hset
        refine ⟨pre, a0, post, hl, hid, ha ▸ hu, ?_⟩
        simp [updateAlert, hs, hset, hl2]
    · simp [updateAlert, hs] at hok

/-- Witness for update_alert_contract at concrete inputs. -/
theorem update_alert_contract_witness :
    updateAlert [{ id := 1, timestamp := 0, severity := "high", type := "traffic_analysis",
                   description := "", source_ip := "", destination_ip := "", status := "active" }]
        1 (some "bogus")
      = (.invalidStatus,
         [{ id := 1, timestamp := 0, severity := "high", type := "traffic_analysis",
            description := "", source_ip := "", destination_ip := "", status := "active" }])
  ∧ updateAlert [{ id := 1, timestamp := 0, severity := "high", type := "traffic_analysis",
                   description := "", source_ip := "", destination_ip := "", status := "active" }]
        2 (some "resolved")
      = (.notFound,
         [{ id := 1, timestamp := 0, severity := "high", type := "traffic_analysis",
            description := "", source_ip := "", destination_ip := "", status := "active" }]) :=
  ⟨(update_alert_contract _ 1).1 "bogus" (by decide),
   (update_alert_contract _ 2).2.2.1 "resolved" (Or.inr (Or.inl rfl)) (by decide)⟩

/-- C9: in update_alert the status-validity check precedes the
existence check: an illegal or absent status always yields the
validation error, even when the alert id matches no known alert, and
not-found is only ever returned for a legal status value. -/
theorem update_alert_validation_precedes_lookup (alerts : List Alert) (alert_id : Nat)
    (os : Option String) :
    ((∀ s : String, os = some s → ¬(s = "active" ∨ s = "resolved" ∨ s = "investigating")) →
        updateAlert alerts alert_id os = (.invalidStatus, alerts))
  ∧ ((updateAlert alerts alert_id os).1 = .notFound →
        ∃ s, os = some s ∧ (s = "active" ∨ s = "resolved" ∨ s = "investigating")) := by
  constructor
  · intro hbad
    cases os with
    | none => rfl
    | some s => simp [updateAlert, hbad s rfl]
  · intro hnf
    cases os with
    | none => simp [updateAlert] at hnf
    | some s =>
      by_cases hs : s = "active" ∨ s = "resolved" ∨ s = "investigating"
      · exact ⟨s, rfl, hs⟩
      · simp [updateAlert, hs] at hnf

/-- Witness for update_alert_validation_precedes_lookup: requesting
status 'stale' on an empty alert list (so the id matches nothing) is
answered with the validation error, not not-found. -/
theorem update_alert_validation_precedes_lookup_witness :
    updateAlert [] 7 (some "stale") = (.invalidStatus, []) :=
  (update_alert_validation_precedes_lookup [] 7 (some "stale")).1
    (fun s hs => by injection hs with h; subst h; decide)

/-- The alert used in the C3 counterexample: an alert already swept to
status 'stale'. -/
def c3StaleAlert : Alert :=
  { id := 1, timestamp := 0, severity := "medium", type := "traffic_analysis",
    description := "", source_ip := "", destination_ip := "", status := "stale" }

/-- Counterexample to C3 as stated: 'stale' is not terminal. For a
stale alert, update_alert with the legal status 'active' succeeds and
changes that alert's status away from 'stale'. -/
theorem stale_terminal_counterexample :
    c3StaleAlert.status = "stale"
  ∧ (updateAlert [c3StaleAlert] 1 (some "active")).1 = .ok { c3StaleAlert with status := "active" }
  ∧ (updateAlert [c3StaleAlert] 1 (some "active")).2 = [{ c3StaleAlert with status := "active" }]
  ∧ ({ c3StaleAlert with status := "active" } : Alert).status ≠ "stale" := by
  refine ⟨rfl, by decide, by decide, by decide⟩

/-- C3 amended: the status 'stale' is assigned only by the
reconciliation sweep: update_alert rejects a requested status of
'stale' outright, any alert that is stale after an update_alert call
was already present (stale) before it, and generate_alert only ever
creates alerts with status 'active'. ('Stale' is not terminal: see the
counterexample.) -/
theorem stale_only_from_sweep (alerts : List Alert) (alert_id : Nat) (os : Option String) :
    updateAlert alerts alert_id (some "stale") = (.invalidStatus, alerts)
  ∧ (∀ a ∈ (updateAlert alerts alert_id os).2, a.status = "stale" → a ∈ alerts)
  ∧ (∀ (now : Int) (d : AlertData), (generateAlert alerts now d).1.status = "active") := by
  refine ⟨?_, ?_, fun now d => rfl⟩
  · have h : ¬("stale" = "active" ∨ "stale" = "resolved" ∨ "stale" = "investigating") := by decide
    simp [updateAlert, h]
  · intro a ha hstale
    cases os with
    | none => exact ha
    | some s =>
      by_cases hs : s = "active" ∨ s = "resolved" ∨ s = "investigating"
      · cases hset : setStatusFirst alert_id s alerts with
        | none =>
          have h2 : (updateAlert alerts alert_id (some s)).2 = alerts := by
            simp [updateAlert, hs, hset]
          rw [h2] at ha; exact ha
        | some p =>
          obtain ⟨u, l2⟩ := p
          have h2 : (updateAlert alerts alert_id (some s)).2 = l2 := by
            simp [updateAlert, hs, hset]
          rw [h2] at ha
          obtain ⟨pre, a0, post, hl, hid, hpre, hu, hl2⟩ := setStatusFirst_eq_some hset
          rw [hl2] at ha
          rw [hl]
          rcases List.mem_append.mp ha with hin | hin
          · exact List.mem_append.mpr (Or.inl hin)
          · rcases List.mem_cons.mp hin with rfl | hin
            · exfalso
              have hss : s = "stale" := hstale
              rcases hs with h | h | h <;> rw [h] at hss <;> exact absurd hss (by decide)
            · exact List.mem_append.mpr (Or.inr (List.mem_cons_of_mem a0 hin))
      · have h2 : (updateAlert alerts alert_id (some s)).2 = alerts := by
          simp [updateAlert, hs]
        rw [h2] at ha; exact ha

/-- Witness for stale_only_from_sweep at concrete inputs. -/
theorem stale_only_from_sweep_witness :
    updateAlert [c3StaleAlert] 1 (some "stale") = (.invalidStatus, [c3StaleAlert])
  ∧ c3StaleAlert ∈ ([c3StaleAlert] : List Alert)
  ∧ (generateAlert [c3StaleAlert] 0 ({} : AlertData)).1.status = "active" :=
  ⟨(stale_only_from_sweep [c3StaleAlert] 1 (some "bogus")).1,
   (stale_only_from_sweep [c3StaleAlert] 1 (some "bogus")).2.1 c3StaleAlert (by decide) rfl,
   (stale_only_from_sweep [c3StaleAlert] 1 (some "bogus")).2.2 0 ({} : AlertData)⟩

/-- The per-alert step of the stale sweep in background_monitor
(src/app.py lines 471-475): an active alert whose timestamp lies before
cutoff_time = now - ttl is set to status 'stale'; every other alert is
left untouched. The 24-hour ttl of line 470 is the ttl argument. -/
def sweepStep (now ttl : Int) (a : Alert) : Alert :=
  if a.status = "active" ∧ a.timestamp < now - ttl then { a with status := "stale" } else a

/-- The stale sweep of background_monitor (src/app.py lines 469-475)
applied to the whole alert list. -/
def sweepStale (now ttl : Int) (alerts : List Alert) : List Alert :=
  alerts.map (sweepStep now ttl)

/-- The sweep as the spec words it (section 4.2): for every alert with
status 'active' and now - created_at > ttl, transition to 'stale';
every other alert is unchanged. -/
def sweep_stale_spec (now ttl : Int) (alerts : List Alert) : List Alert :=
  alerts.map (fun a =>
    if a.status = "active" ∧ now - a.timestamp > ttl then { a with status := "stale" } else a)

theorem sweepStep_eq_spec (now ttl : Int) (a : Alert) :
    sweepStep now ttl a =
      if a.status = "active" ∧ now - a.timestamp > ttl then { a with status := "stale" } else a := by
  have h : (a.status = "active" ∧ a.timestamp < now - ttl) ↔
      (a.status = "active" ∧ now - a.timestamp > ttl) := by
    constructor <;> rintro ⟨h1, h2⟩ <;> exact ⟨h1, by omega⟩
  rw [sweepStep, if_congr h rfl rfl]

theorem sweepStep_idem (now ttl : Int) (a : Alert) :
    sweepStep now ttl (sweepStep now ttl a) = sweepStep now ttl a := by
  by_cases h : a.status = "active" ∧ a.timestamp < now - ttl
  · have hinner : sweepStep now ttl a = { a with status := "stale" } := by
      rw [sweepStep, if_pos h]
    rw [hinner, sweepStep, if_neg]
    rintro ⟨h1, h2⟩
    simp at h1
  · have hinner : sweepStep now ttl a = a := by
      rw [sweepStep, if_neg h]
    rw [hinner, hinner]

/-- C6: the stale sweep transitions exactly those alerts with status
'active' and now - created_at > ttl to 'stale' and leaves every other
alert unchanged (it coincides with the sweep as worded by the spec),
and it is idempotent: a second run with the same now and ttl leaves the
alert state identical. -/
theorem sweep_stale_exact_and_idempotent (now ttl : Int) (alerts : List Alert) :
    sweepStale now ttl alerts = sweep_stale_spec now ttl alerts
  ∧ sweepStale now ttl (sweepStale now ttl alerts) = sweepStale now ttl alerts := by
  constructor
  · induction alerts with
    | nil => rfl
    | cons a t ih =>
      simp only [sweepStale, sweep_stale_spec, List.map_cons] at *
      rw [ih, sweepStep_eq_spec]
  · induction alerts with
    | nil => rfl
    | cons a t ih =>
      simp only [sweepStale, List.map_cons] at *
      rw [ih, sweepStep_idem]

/-- The number of active alerts, as computed by the list comprehension
on src/app.py lines 170 and 266. -/
def countActive (alerts : List Alert) : Nat :=
  (alerts.filter (fun a => a.status == "active")).length

/-- The response body of the get_alerts endpoint (src/app.py lines
263-267). -/
structure AlertsResponse where
  alerts : List Alert
  total : Nat
  active : Nat
deriving Repr, DecidableEq

/-- The get_alerts endpoint (src/app.py lines 253-267): the status
query parameter defaults to 'all'; only the exact value 'active'
filters, and the active count is always computed over all alerts. -/
def getAlerts (statusArg : Option String) (alerts : List Alert) : AlertsResponse :=
  let status_filter := statusArg.getD "all"
  let selected :=
    if status_filter = "active" then alerts.filter (fun a => a.status == "active") else alerts
  { alerts := selected, total := selected.length, active := countActive alerts }

/-- C10: for every value of the status filter other than exactly
'active' (including 'resolved', 'stale', unknown strings, or the
parameter being absent, which defaults to 'all'), get_alerts returns
the full alert sequence in insertion order, and the active count in
the response is always computed over all alerts regardless of the
filter. -/
theorem list_alerts_filter_behavior (alerts : List Alert) :
    (∀ sf : String, sf ≠ "active" →
        getAlerts (some sf) alerts = ⟨alerts, alerts.length, countActive alerts⟩)
  ∧ getAlerts none alerts = ⟨alerts, alerts.length, countActive alerts⟩
  ∧ (∀ statusArg : Option String, (getAlerts statusArg alerts).active = countActive alerts) := by
  refine ⟨?_, ?_, fun statusArg => rfl⟩
  · intro sf h
    simp [getAlerts, h]
  · simp [getAlerts]

/-- The alert used in the C10 witness: one stale alert. -/
def c10StaleAlert : Alert :=
  { id := 1, timestamp := 0, severity := "low", type := "traffic_analysis",
    description := "", source_ip := "", destination_ip := "", status := "stale" }

/-- Witness for list_alerts_filter_behavior: the filter value
'resolved' returns the full list, a stale alert included. -/
theorem list_alerts_filter_behavior_witness :
    getAlerts (some "resolved") [c10StaleAlert]
      = ⟨[c10StaleAlert], List.length [c10StaleAlert], countActive [c10StaleAlert]⟩ :=
  (list_alerts_filter_behavior _).1 "resolved" (by decide)

/-- Modelled from the spec: the cache backend state seen by the
network-stats endpoints. cache_manager.py is not under src/, so its
contract comes from spec sections 4.3 and 6: one cached entry per
resource kind (here the aggregate network stats, cached with a TTL and
deleted by pattern invalidation, where the pattern star matches every
key) plus a reachability flag; any backend failure degrades every cache
operation to a no-op. -/
structure Cache (α : Type) where
  network_stats : Option α := none
  available : Bool := true

/-- Modelled from the spec: cache_manager.get_network_stats returns the
cached stats snapshot on a hit and nothing on a miss or when the
backend is unreachable (spec section 4.3: a cache-backend failure
degrades the read to a no-op cache step). -/
def getNetworkStats {α : Type} (c : Cache α) : Option α :=
  if c.available then c.network_stats else none

/-- Modelled from the spec: cache_manager.cache_network_stats
(write-through of the stats snapshot); a no-op when the backend is
unreachable. -/
def cacheNetworkStats {α : Type} (c : Cache α) (s : α) : Cache α :=
  if c.available then { c with network_stats := some s } else c

/-- Modelled from the spec: cache_manager.clear_cache removes all
entries whose key matches the glob pattern and reports success, where
the pattern star invalidates everything; it reports failure and removes
nothing when the backend is unreachable. Only the star pattern is
exercised here; a non-star pattern is modelled as matching no tracked
entry. -/
def clearCache {α : Type} (c : Cache α) (pattern : String) : Cache α × Bool :=
  if c.available then
    (if pattern = "*" then ({ c with network_stats := none }, true) else (c, true))
  else (c, false)

/-- The response of the network_status endpoint (src/app.py lines
167-172), together with a tag recording which branch of lines 159-165
served the stats: true when they came from the cache, false when they
came from the authoritative in-memory snapshot. -/
structure StatusResponse (α : Type) where
  stats : α
  fromCache : Bool
  active_alerts : Nat

/-- The network_status endpoint (src/app.py lines 155-172): try the
cache; on a hit serve the cached stats; on a miss serve the
authoritative in-memory snapshot and write it through to the cache.
Returns the response and the resulting cache state. -/
def networkStatus {α : Type} (c : Cache α) (monitorStats : α) (alerts : List Alert) :
    StatusResponse α × Cache α :=
  match getNetworkStats c with
  | some s => ({ stats := s, fromCache := true, active_alerts := countActive alerts }, c)
  | none =>
    ({ stats := monitorStats, fromCache := false, active_alerts := countActive alerts },
     cacheNetworkStats c monitorStats)

/-- C8: cache-aside round trip for the network stats. After clearing
the whole cache with pattern star, the next network-status read finds
no cached entry, returns the authoritative snapshot (source origin)
and repopulates the cache, so the immediately subsequent read returns
an equal value from the cache (source cache); and when the cache
backend is unavailable the read still succeeds with the authoritative
snapshot. -/
theorem network_status_cache_aside {α : Type} (c : Cache α) (s : α) (alerts : List Alert) :
    (c.available = true →
        (networkStatus ((clearCache c "*").1) s alerts).1.stats = s
      ∧ (networkStatus ((clearCache c "*").1) s alerts).1.fromCache = false
      ∧ (networkStatus ((networkStatus ((clearCache c "*").1) s alerts).2) s alerts).1.stats = s
      ∧ (networkStatus ((networkStatus ((clearCache c "*").1) s alerts).2) s alerts).1.fromCache = true)
  ∧ (c.available = false →
        (networkStatus ((clearCache c "*").1) s alerts).1.stats = s
      ∧ (networkStatus ((clearCache c "*").1) s alerts).1.fromCache = false) := by
  constructor
  · intro h
    simp [clearCache, networkStatus, getNetworkStats, cacheNetworkStats, h]
  · intro h
    simp [clearCache, networkStatus, getNetworkStats, cacheNetworkStats, h]

/-- Witness for network_status_cache_aside at concrete inputs, one
reachable cache and one unreachable cache. -/
theorem network_status_cache_aside_witness :
    (({ network_stats := some 5, available := true } : Cache Nat).available = true
      ∧ ((networkStatus ((clearCache ({ network_stats := some 5, available := true } : Cache Nat) "*").1) 7 []).1.stats = 7
        ∧ (networkStatus ((clearCache ({ network_stats := some 5, available := true } : Cache Nat) "*").1) 7 []).1.fromCache = false
        ∧ (networkStatus ((networkStatus ((clearCache ({ network_stats := some 5, available := true } : Cache Nat) "*").1) 7 []).2) 7 []).1.stats = 7
        ∧ (networkStatus ((networkStatus ((clearCache ({ network_stats := some 5, available := true } : Cache Nat) "*").1) 7 []).2) 7 []).1.fromCache = true))
  ∧ (({ network_stats := some 5, available := false } : Cache Nat).available = false
      ∧ ((networkStatus ((clearCache ({ network_stats := some 5, available := false } : Cache Nat) "*").1) 7 []).1.stats = 7
        ∧ (networkStatus ((clearCache ({ network_stats := some 5, available := false } : Cache Nat) "*").1) 7 []).1.fromCache = false)) :=
  ⟨⟨rfl, (network_status_cache_aside { network_stats := some 5, available := true } 7 []).1 rfl⟩,
   ⟨rfl, (network_status_cache_aside { network_stats := some 5, available := false } 7 []).2 rfl⟩⟩
